import Mathlib

/-!
Shallow embedding of the message-processing and delivery-resilience core of
the nostr-openclaw-dm-plugin repository, together with proofs of the frozen
claims about it.

Sources embedded here:
* `src/auto-reply-daemon-openclaw.js` (first concatenated copy): the current
  daemon — decryption resolver (`decryptDM`, `encryptDM`), dedup ledger and
  polling loop, conversation tracker (`getConversationState`,
  `shouldSendAutoReply`), cooldown registry (`isCommandOnCooldown`,
  `markCommandExecuted`), command dispatcher (`detectAndExecuteCommand`),
  retry backoff (`jitter` and the `backoffMs` expression of
  `publishWithRetry`), and the housekeeping sweep (`cleanupOldState`).
* `src/unnamed/part_004`: the legacy resilient publish engine
  (`getBackoffDelay`, `publishWithRetry` with `Promise.allSettled`,
  per-relay failure classification and the `relayRateLimits` health map),
  which is the implementation of the spec's Publish Engine component
  (per-relay circuit breaking lives only there).

JavaScript specifics modelled explicitly: number values that may be
`Infinity` (`JTime`, `JCount`), truthiness of numeric fields (a stored `0`
timestamp is falsy), `Math.ceil(x/1000)` on integers, and `Map`/`Set`
semantics via functions to `Option` and lists.
-/

namespace NostrDaemon

/-- Timestamp value as stored in JS relay-health entries: a finite number of
milliseconds, or `Infinity` (used to mark a relay permanently blocked). -/
inductive JTime where
| fin (t : Int)
| inf
deriving DecidableEq, Repr

/-- Failure counter that may be `Infinity` (`consecutiveFailures` is set to
`Infinity` for a permanently blocked relay). -/
inductive JCount where
| fin (n : Nat)
| inf
deriving DecidableEq, Repr

/-- The JS comparison `backoffUntil > now` (used by the relay filter);
`Infinity > now` is always true. -/
def JTime.gtNow : JTime → Int → Bool
| JTime.inf, _ => true
| JTime.fin t, now => decide (now < t)

/-- The JS comparison `backoffUntil < now` (used by the housekeeping sweep);
`Infinity < now` is always false. -/
def JTime.ltNow : JTime → Int → Bool
| JTime.inf, _ => false
| JTime.fin t, now => decide (t < now)

/-- JS `consecutiveFailures + 1` (`Infinity + 1` stays `Infinity`). -/
def JCount.succ : JCount → JCount
| JCount.fin n => JCount.fin (n + 1)
| JCount.inf => JCount.inf

/-- One entry of the `relayRateLimits` map:
`{ lastErrorTime, backoffUntil, consecutiveFailures }`. -/
structure RateLimitEntry where
  lastErrorTime : Int
  backoffUntil : JTime
  consecutiveFailures : JCount
deriving DecidableEq, Repr

/-- The `relayRateLimits` JS `Map`, keyed by relay URL; `none` means the key
is absent. -/
def HealthMap : Type := String → Option RateLimitEntry

/-- JS `Map.set` on a string-keyed map. -/
def mapSet {α : Type} (m : String → Option α) (k : String) (v : α) :
    String → Option α :=
  fun k' => if k' = k then some v else m k'

/-- JS `Map.delete` on a string-keyed map. -/
def mapDel {α : Type} (m : String → Option α) (k : String) :
    String → Option α :=
  fun k' => if k' = k then none else m k'

/-- The empty JS `Map`. -/
def mapEmpty {α : Type} : String → Option α := fun _ => none

/-- Does the haystack start with the pattern (on character lists)? -/
def startsWithL : List Char → List Char → Bool
| _, [] => true
| [], _ :: _ => false
| c :: h, p :: ps => (c = p) && startsWithL h ps

/-- Does the pattern occur contiguously in the haystack (on character
lists)? The empty pattern always occurs. -/
def listIncludes : List Char → List Char → Bool
| _, [] => true
| [], _ :: _ => false
| c :: rest, p :: ps =>
  startsWithL (c :: rest) (p :: ps) || listIncludes rest (p :: ps)

/-- JS `String.prototype.includes`: the pattern occurs somewhere in the
haystack. -/
def strIncludes (hay pat : String) : Bool :=
  listIncludes hay.data pat.data

/-- JS `String.prototype.toLowerCase` restricted to the ASCII case mapping
(all patterns and signatures in the code are ASCII; the crab emoji is
unaffected by case mapping). -/
def strToLower (s : String) : String :=
  String.mk (s.data.map Char.toLower)

/-- Retry/backoff constants shared by both engines
(`MAX_RETRIES = 3`, `BASE_BACKOFF_MS = 2000`, `MAX_BACKOFF_MS = 30000`). -/
def MAX_RETRIES : Nat := 3

/-- Base backoff in milliseconds. -/
def BASE_BACKOFF_MS : Int := 2000

/-- Backoff cap in milliseconds. -/
def MAX_BACKOFF_MS : Int := 30000

/-- Constant `JITTER_MS = 1000` from auto-reply-daemon-openclaw.js. -/
def JITTER_MS : Int := 1000

/-- Function `getBackoffDelay(attempt)` from src/unnamed/part_004:
`min(BASE_BACKOFF_MS * 2^attempt, MAX_BACKOFF_MS) + Math.random() * 1000`.
The jitter sample `j` stands for the `Math.random() * 1000` draw; callers
constrain it to `0 ≤ j < 1000`. The exponent may be `Infinity` (the JS value
`Math.pow(2, Infinity) = Infinity` makes the `min` collapse to the cap). -/
def getBackoffDelay (cf : JCount) (j : Int) : Int :=
  match cf with
  | JCount.fin n => min (BASE_BACKOFF_MS * 2 ^ n) MAX_BACKOFF_MS + j
  | JCount.inf => MAX_BACKOFF_MS + j

/-- Rate-limit signature test of src/unnamed/part_004 line 90:
`reason.toLowerCase()` contains `'rate-limited'`, `'noting too much'` or
`'you are noting too much'`. -/
def isRateLimitReason (reason : String) : Bool :=
  let l := strToLower reason
  strIncludes l "rate-limited" || strIncludes l "noting too much" ||
    strIncludes l "you are noting too much"

/-- Permanent-failure signature test of src/unnamed/part_004 line 98:
`reason.toLowerCase()` contains `'inbox'`, `'blocked'` or `'does not exist'`. -/
def isPermanentReason (reason : String) : Bool :=
  let l := strToLower reason
  strIncludes l "inbox" || strIncludes l "blocked" ||
    strIncludes l "does not exist"

/-- Outcome of one settled `pool.publish([url], event)` promise. -/
inductive PubResult where
| fulfilled
| rejected (reason : String)
deriving DecidableEq, Repr

/-- The failure branch of the result-processing loop in src/unnamed/part_004
lines 89-106: classify the rejection reason and update the health entry of
`url` (rate-limited: bump `consecutiveFailures` and set a finite
`backoffUntil`; permanent: set both to `Infinity`; other: leave the map
untouched). `j` is the jitter sample of the `getBackoffDelay` call. -/
def classifyFailure (now j : Int) (m : HealthMap) (url reason : String) :
    HealthMap :=
  if isRateLimitReason reason then
    let cf := match m url with
      | some e => e.consecutiveFailures
      | none => JCount.fin 0
    mapSet m url
      { lastErrorTime := now,
        backoffUntil := JTime.fin (now + getBackoffDelay cf j),
        consecutiveFailures := cf.succ }
  else if isPermanentReason reason then
    mapSet m url
      { lastErrorTime := now, backoffUntil := JTime.inf,
        consecutiveFailures := JCount.inf }
  else m

/-- The `pub.forEach` result-processing of src/unnamed/part_004 lines 77-108,
folded in order over the settled results: delete the health entry on a
fulfilled publish, classify the reason otherwise; also count successes. -/
def processResults (now : Int) (jit : String → Int) (m : HealthMap) :
    List (String × PubResult) → HealthMap × Nat
| [] => (m, 0)
| (url, PubResult.fulfilled) :: rest =>
  let r := processResults now jit (mapDel m url) rest
  (r.1, r.2 + 1)
| (url, PubResult.rejected reason) :: rest =>
  processResults now jit (classifyFailure now (jit url) m url reason) rest

/-- The per-round relay filter (src/unnamed/part_004 lines 55-61, identical
in auto-reply-daemon-openclaw.js lines 795-801): drop every relay whose
health entry has `backoffUntil > Date.now()`. -/
def availableRelays (m : HealthMap) (now : Int) (relays : List String) :
    List String :=
  relays.filter fun url =>
    match m url with
    | some e => ! e.backoffUntil.gtNow now
    | none => true

/-- Externally visible actions of the legacy publish loop: timed waits and
fan-out publishes. -/
inductive PubAction where
| wait (ms : Int)
| publishTo (relays : List String)
deriving DecidableEq, Repr

/-- The retry loop of `publishWithRetry` in src/unnamed/part_004
lines 51-127. `outcome a u` is the settled result of publishing to relay `u`
during attempt `a`; `jit a u` the jitter sample used if that failure is
classified rate-limited; `nows a` is `Date.now()` during attempt `a`;
`remaining` is `maxRetries - attempt`. An empty filtered set waits the fixed
30000 ms penalty and continues with the next attempt; a non-empty round
settles all publishes, processes every result and returns
`successCount > 0`. When the loop exhausts its attempts it returns `false`. -/
def publishRetryAux (outcome : Nat → String → PubResult)
    (jit : Nat → String → Int) (nows : Nat → Int) (relays : List String) :
    Nat → Nat → HealthMap → Bool × HealthMap × List PubAction
| _, 0, m => (false, m, [])
| attempt, remaining + 1, m =>
  let now := nows attempt
  let avail := availableRelays m now relays
  if avail.isEmpty then
    let r := publishRetryAux outcome jit nows relays (attempt + 1) remaining m
    (r.1, r.2.1, PubAction.wait 30000 :: r.2.2)
  else
    let res := processResults now (jit attempt) m
      (avail.map fun u => (u, outcome attempt u))
    (decide (0 < res.2), res.1, [PubAction.publishTo avail])

/-- Entry point `publishWithRetry(pool, event, relays, maxRetries)` of
src/unnamed/part_004, started at attempt 0 on health map `m`. -/
def publishWithRetryLegacy (outcome : Nat → String → PubResult)
    (jit : Nat → String → Int) (nows : Nat → Int) (relays : List String)
    (maxRetries : Nat) (m : HealthMap) : Bool × HealthMap × List PubAction :=
  publishRetryAux outcome jit nows relays 0 maxRetries m

/-- Function `jitter()` from auto-reply-daemon-openclaw.js lines 787-789:
`Math.floor(Math.random() * 2 * JITTER_MS) - JITTER_MS`. The sample `r`
stands for the floored draw, an integer in `[0, 2 * JITTER_MS)`. -/
def jitter (r : Nat) : Int := (r : Int) - JITTER_MS

/-- The retry delay computed at auto-reply-daemon-openclaw.js lines 818-821:
`Math.min(BASE_BACKOFF_MS * Math.pow(2, attempt), MAX_BACKOFF_MS) + jitter()`. -/
def backoffMs (attempt : Nat) (r : Nat) : Int :=
  min (BASE_BACKOFF_MS * 2 ^ attempt) MAX_BACKOFF_MS + jitter r

/-- The deterministic part of the retry delay (jitter ignored). -/
def backoffNoJitter (attempt : Nat) : Int :=
  min (BASE_BACKOFF_MS * 2 ^ attempt) MAX_BACKOFF_MS

/-- The `relayRateLimits` sweep inside `cleanupOldState`
(auto-reply-daemon-openclaw.js lines 955-960): delete every entry whose
`backoffUntil < now` (an expired cooldown); an `Infinity` entry never
satisfies the comparison and is kept. -/
def cleanupRateLimits (now : Int) (m : HealthMap) : HealthMap :=
  fun url =>
    match m url with
    | some e => if e.backoffUntil.ltNow now then none else some e
    | none => none

/-- One process-lifetime operation touching the relay-health map: a publish
round of the legacy engine, or a housekeeping sweep. -/
inductive HealthOp where
| round (outcome : String → PubResult) (jit : String → Int) (now : Int)
    (relays : List String)
| sweep (now : Int)

/-- Apply one operation, also reporting which relays the round selected for
publish attempts (a sweep, or a round whose filtered set was empty, selects
none). -/
def applyHealthOp (m : HealthMap) : HealthOp → HealthMap × List String
| HealthOp.round outcome jit now relays =>
  let avail := availableRelays m now relays
  if avail.isEmpty then (m, [])
  else ((processResults now jit m (avail.map fun u => (u, outcome u))).1, avail)
| HealthOp.sweep now => (cleanupRateLimits now m, [])

/-- Run a sequence of rounds and sweeps, collecting each round's selected
relays. -/
def runHealthOps (m : HealthMap) : List HealthOp → HealthMap × List (List String)
| [] => (m, [])
| op :: ops =>
  let r := applyHealthOp m op
  let rest := runHealthOps r.1 ops
  (rest.1, r.2 :: rest.2)

/-- Truthiness of an optional JS number: `undefined`/`null` and `0` are
falsy. Used wherever the code tests a timestamp with `if (x && ...)`. -/
def truthyNum : Option Int → Bool
| none => false
| some t => t != 0

/-- Constant `CONVERSATION_TIMEOUT_MS = 60 * 60 * 1000` (1 hour). -/
def CONVERSATION_TIMEOUT_MS : Int := 3600000

/-- The `COMMAND_COOLDOWNS` table of auto-reply-daemon-openclaw.js
lines 286-293. -/
def COMMAND_COOLDOWNS (cmd : String) : Option Int :=
  if cmd = "restart" then some 60000
  else if cmd = "status" then some 10000
  else if cmd = "task" then some 30000
  else if cmd = "newSession" then some 30000
  else if cmd = "help" then some 5000
  else if cmd = "relays" then some 30000
  else none

/-- Lookup `COMMAND_COOLDOWNS[commandName] || 30 * 1000` (line 665); the `||` also
replaces a (hypothetical) stored `0` with the default. -/
def cooldownTimeOf (cmd : String) : Int :=
  match COMMAND_COOLDOWNS cmd with
  | some v => if v = 0 then 30000 else v
  | none => 30000

/-- JS `Math.ceil(x / 1000)` on an integer operand (remaining-seconds display). -/
def jsCeilDiv1000 (a : Int) : Int := (a + 999).fdiv 1000

/-- Per-sender conversation state (auto-reply-daemon-openclaw.js line 306):
`{ lastReplyTime, conversationStart, messageCount, lastCommandTime }`.
`lastCommandTime` is `none` when the field is absent (the object created by
`getConversationState` has no such field; `markCommandExecuted` adds it).
The write-only `taskStatus` field is never read and is omitted. -/
structure ConvState where
  lastReplyTime : Option Int
  conversationStart : Option Int
  messageCount : Int
  lastCommandTime : Option (String → Option Int)

/-- The daemon's global mutable state: the two dedup ledgers
(`processedEvents`, `repliedEvents` JS `Set`s), the per-sender conversation
map, and the global per-command cooldown map. -/
structure DaemonState where
  processedEvents : List String
  repliedEvents : List String
  senderConversations : String → Option ConvState
  commandCooldowns : String → Option Int

/-- JS `Set.add`: idempotent insertion. -/
def setAdd (s : List String) (x : String) : List String :=
  if x ∈ s then s else x :: s

/-- The all-fresh initial daemon state. -/
def emptyState : DaemonState :=
  { processedEvents := [], repliedEvents := [],
    senderConversations := mapEmpty, commandCooldowns := mapEmpty }

/-- Result of `isCommandOnCooldown`: either
`{ onCooldown: true, remainingTime, reason }` or `{ onCooldown: false }`. -/
inductive CooldownResult where
| blocked (remainingTime : Int) (reason : String)
| free
deriving DecidableEq, Repr

/-- The per-sender gate of `isCommandOnCooldown`
(auto-reply-daemon-openclaw.js lines 674-684): look up
`senderConversations.get(sender).lastCommandTime[cmd]` guarding each step by
JS truthiness, and block when `now - lastSenderExecution < cooldownTime`. -/
def senderGate (st : DaemonState) (now : Int) (cmd sender : String)
    (cooldownTime : Int) : CooldownResult :=
  match st.senderConversations sender with
  | some cs =>
    match cs.lastCommandTime with
    | some lct =>
      match lct cmd with
      | some t =>
        if t ≠ 0 ∧ now - t < cooldownTime then
          CooldownResult.blocked (jsCeilDiv1000 (cooldownTime - (now - t)))
            "sender"
        else CooldownResult.free
      | none => CooldownResult.free
    | none => CooldownResult.free
  | none => CooldownResult.free

/-- Function `isCommandOnCooldown(commandName, senderPubkeyHex)`
(auto-reply-daemon-openclaw.js lines 663-685): the global gate (one
timestamp per command, shared by all senders) is checked first, then the
per-(command, sender) gate. -/
def isCommandOnCooldown (st : DaemonState) (now : Int) (cmd sender : String) :
    CooldownResult :=
  let cooldownTime := cooldownTimeOf cmd
  match st.commandCooldowns cmd with
  | some t =>
    if t ≠ 0 ∧ now - t < cooldownTime then
      CooldownResult.blocked (jsCeilDiv1000 (cooldownTime - (now - t)))
        "global"
    else senderGate st now cmd sender cooldownTime
  | none => senderGate st now cmd sender cooldownTime

/-- Function `markCommandExecuted(commandName, senderPubkeyHex)`
(auto-reply-daemon-openclaw.js lines 690-711): set the global timestamp, and
set `lastCommandTime[cmd]` in the sender's conversation state, creating the
state (with `lastReplyTime: null, conversationStart: null, messageCount: 0`)
or the `lastCommandTime` object when absent. -/
def markCommandExecuted (st : DaemonState) (now : Int) (cmd sender : String) :
    DaemonState :=
  let global := mapSet st.commandCooldowns cmd now
  match st.senderConversations sender with
  | none =>
    { st with
      commandCooldowns := global,
      senderConversations := mapSet st.senderConversations sender
        { lastReplyTime := none, conversationStart := none, messageCount := 0,
          lastCommandTime := some (mapSet mapEmpty cmd now) } }
  | some cs =>
    let lct := match cs.lastCommandTime with
      | none => mapSet mapEmpty cmd now
      | some f => mapSet f cmd now
    { st with
      commandCooldowns := global,
      senderConversations := mapSet st.senderConversations sender
        { cs with lastCommandTime := some lct } }

/-- Case-insensitive pattern test: the command regexes `/🦀status/i` etc. are
literal patterns tested against the message (`pattern.test(message)`). -/
def strIncludesCI (hay pat : String) : Bool :=
  strIncludes (strToLower hay) pat

/-- The ordered command table of `detectAndExecuteCommand`
(auto-reply-daemon-openclaw.js lines 717-748): pattern and command name. -/
def commandTable : List (String × String) :=
  [("🦀status", "status"), ("🦀current task", "task"),
   ("🦀new session", "newSession"), ("🦀restart", "restart"),
   ("🦀help", "help"), ("🦀relays", "relays")]

/-- First command of the table whose pattern matches the message. -/
def matchCommand (message : String) : Option String :=
  (commandTable.find? fun p => strIncludesCI message p.1).map Prod.snd

/-- The cooldown notice returned to the sender (line 757). -/
def cooldownNotice (remainingTime : Int) : String :=
  "⏳ Command on cooldown. Please wait " ++ toString remainingTime ++
    " seconds before trying again."

/-- Result of `detectAndExecuteCommand`: the reply text (or `null`), the
daemon state after any cooldown bookkeeping, and the names of the handlers
actually invoked. -/
structure DispatchResult where
  reply : Option String
  st : DaemonState
  invoked : List String

/-- Function `detectAndExecuteCommand(message, senderPubkeyHex)`
(auto-reply-daemon-openclaw.js lines 716-781). `handlers name` is the
outcome of the bound external action: `Except.ok` its reply text,
`Except.error` the message of a thrown failure or timeout. On the first
matching pattern: a cooldown block returns the notice without invoking the
handler; otherwise the handler runs, a success is followed by
`markCommandExecuted`, and a thrown failure is caught and converted to the
`"❌ Error: ..."` reply (without `markCommandExecuted`). No match returns
`null`. -/
def detectAndExecuteCommand (handlers : String → Except String String)
    (st : DaemonState) (now : Int) (message sender : String) :
    DispatchResult :=
  match matchCommand message with
  | none => ⟨none, st, []⟩
  | some name =>
    match isCommandOnCooldown st now name sender with
    | CooldownResult.blocked remainingTime _ =>
      ⟨some (cooldownNotice remainingTime), st, []⟩
    | CooldownResult.free =>
      match handlers name with
      | Except.ok result =>
        ⟨some result, markCommandExecuted st now name sender, [name]⟩
      | Except.error e => ⟨some ("❌ Error: " ++ e), st, [name]⟩

/-- Function `getConversationState(senderPubkeyHex)`
(auto-reply-daemon-openclaw.js lines 842-865): lazily create the per-sender
state, then reset `lastReplyTime`, `conversationStart` and `messageCount`
when the conversation timed out (`lastReplyTime` truthy and
`now - lastReplyTime > CONVERSATION_TIMEOUT_MS`). Returns the (possibly
reset) state together with the updated state map. -/
def getConversationState (st : DaemonState) (now : Int) (sender : String) :
    ConvState × DaemonState :=
  let state0 := match st.senderConversations sender with
    | some s => s
    | none =>
      { lastReplyTime := none, conversationStart := none, messageCount := 0,
        lastCommandTime := none }
  let state1 :=
    if truthyNum state0.lastReplyTime ∧
        CONVERSATION_TIMEOUT_MS < now - state0.lastReplyTime.getD 0 then
      { state0 with
        lastReplyTime := none
        conversationStart := none
        messageCount := 0 }
    else state0
  (state1,
    { st with senderConversations := mapSet st.senderConversations sender state1 })

/-- Function `shouldSendAutoReply(eventId, senderPubkeyHex)`
(auto-reply-daemon-openclaw.js lines 867-887): refuse when the event was
already replied to; otherwise consult the conversation state and refuse when
`lastReplyTime` is truthy and `now - lastReplyTime < CONVERSATION_TIMEOUT_MS`.
Returns the decision and the state map as mutated by `getConversationState`. -/
def shouldSendAutoReply (st : DaemonState) (now : Int) (eventId sender : String) :
    Bool × DaemonState :=
  if eventId ∈ st.repliedEvents then (false, st)
  else
    let r := getConversationState st now sender
    match r.1.lastReplyTime with
    | some t =>
      if t ≠ 0 ∧ now - t < CONVERSATION_TIMEOUT_MS then (false, r.2)
      else (true, r.2)
    | none => (true, r.2)

/-- The auto-reply branch of the post-publish state update
(auto-reply-daemon-openclaw.js lines 1146-1150): fetch the conversation
state, set `lastReplyTime = now`, increment `messageCount`, and record the
event id in `repliedEvents`. -/
def applyAutoReplyUpdate (st : DaemonState) (now : Int) (eventId sender : String) :
    DaemonState :=
  let r := getConversationState st now sender
  let newState :=
    { r.1 with lastReplyTime := some now, messageCount := r.1.messageCount + 1 }
  { r.2 with
    senderConversations := mapSet r.2.senderConversations sender newState,
    repliedEvents := setAdd r.2.repliedEvents eventId }

/-- External capabilities consumed by the polling loop, modelled as oracles:
the sender allowlist test, the four crypto calls (argument order
content/plaintext first, then counterparty key; `Except.error` carries a
thrown message), the command actions, the `checkOpenClawStatus` status line
appended to the auto-reply, the configured bot name, and whether the publish
of the reply to a given event completed without throwing. -/
structure Oracles where
  allowed : String → Bool
  nip44Decrypt : String → String → Except String String
  nip04Decrypt : String → String → Except String String
  nip44Encrypt : String → String → Except String String
  nip04Encrypt : String → String → Except String String
  handlers : String → Except String String
  statusLine : String
  configName : String
  publishOk : String → Bool

/-- Function `decryptDM(content, privateKey, senderPubkey)`
(auto-reply-daemon-openclaw.js lines 322-340): try NIP-44 first, fall back
to NIP-04, and throw naming both schemes when the fallback also fails. -/
def decryptDM (o : Oracles) (content sender : String) : Except String String :=
  match o.nip44Decrypt content sender with
  | Except.ok m => Except.ok m
  | Except.error _ =>
    match o.nip04Decrypt content sender with
    | Except.ok m => Except.ok m
    | Except.error e04 =>
      Except.error ("Decryption failed (both NIP-44 and NIP-04): " ++ e04)

/-- Function `encryptDM(message, privateKey, recipientPubkey)`
(auto-reply-daemon-openclaw.js lines 347-365): NIP-44 first, NIP-04
fallback, throw when both fail. -/
def encryptDM (o : Oracles) (message recipient : String) :
    Except String String :=
  match o.nip44Encrypt message recipient with
  | Except.ok c => Except.ok c
  | Except.error _ =>
    match o.nip04Encrypt message recipient with
    | Except.ok c => Except.ok c
    | Except.error e04 =>
      Except.error ("Encryption failed (both NIP-44 and NIP-04): " ++ e04)

/-- Constant `AUTO_REPLY_TRIGGERS` (auto-reply-daemon-openclaw.js line 274). -/
def AUTO_REPLY_TRIGGERS : List String :=
  ["patch-in", "test", "hello", "hi", "howdy", "ping", "dm", "check", "verify"]

/-- The trigger test of the polling loop (lines 1092-1094):
some trigger occurs in `message.toLowerCase()`. -/
def hasTrigger (message : String) : Bool :=
  AUTO_REPLY_TRIGGERS.any fun trigger => strIncludes (strToLower message) (strToLower trigger)

/-- Reply body `AUTO_REPLY_MESSAGE + statusMessage` as assembled by the loop
(lines 275 and 1105-1118). -/
def autoReplyBody (o : Oracles) : String :=
  "Auto-reply from " ++ o.configName ++
    ": I received your DM! This is an auto-reply confirming that Nostr patch-in feature is working." ++
    o.statusLine

/-- An inbound kind-4 event as consumed by the loop. -/
structure NEvent where
  id : String
  pubkey : String
  content : String
deriving DecidableEq, Repr

/-- Observables of processing one event: whether the event survived the
`processedEvents` dedup check, whether decryption was attempted, and the
reply delivered (`none` when no reply was sent). -/
structure StepTrace where
  pipelineRan : Bool
  decryptAttempted : Bool
  reply : Option String
deriving DecidableEq, Repr

/-- Result of one per-event step: the updated daemon state, the step's
observables, and whether the step threw out of the per-event code (only the
un-guarded `encryptDM` call can: a throw there aborts the rest of the
polling batch and is caught by the loop's outer handler). -/
structure StepResult where
  st : DaemonState
  trace : StepTrace
  aborted : Bool

/-- The reply-sending tail of the loop body (lines 1123-1157): encrypt the
reply (a throw escapes the per-event code), publish it under
`publishWithRetry` (a throw is caught per-event and skips the state update),
and on publish success run the post-publish state update — the auto-reply
bookkeeping, or nothing but a stats counter for a command reply. -/
def sendPhase (o : Oracles) (st : DaemonState) (e : NEvent) (now : Int)
    (replyMessage : String) (isCommand : Bool) : StepResult :=
  match encryptDM o replyMessage e.pubkey with
  | Except.error _ => ⟨st, ⟨true, true, none⟩, true⟩
  | Except.ok _ =>
    if o.publishOk e.id then
      let st' := if isCommand then st
        else applyAutoReplyUpdate st now e.id e.pubkey
      ⟨st', ⟨true, true, some replyMessage⟩, false⟩
    else ⟨st, ⟨true, true, none⟩, false⟩

/-- One iteration of the per-event loop body
(auto-reply-daemon-openclaw.js lines 1046-1160): the `processedEvents`
membership test comes first and the id is recorded before anything else, so
the decrypt/dispatch/reply pipeline runs at most once per id; then the
allowlist check, decryption (a failure is logged and the event dropped),
command dispatch, and — only when no command replied — the auto-reply
trigger and `shouldSendAutoReply` decision. -/
def processEvent (o : Oracles) (st0 : DaemonState) (e : NEvent) (now : Int) :
    StepResult :=
  if e.id ∈ st0.processedEvents then ⟨st0, ⟨false, false, none⟩, false⟩
  else
    let st1 := { st0 with processedEvents := setAdd st0.processedEvents e.id }
    if o.allowed e.pubkey then
      match decryptDM o e.content e.pubkey with
      | Except.error _ => ⟨st1, ⟨true, true, none⟩, false⟩
      | Except.ok message =>
        let d := detectAndExecuteCommand o.handlers st1 now message e.pubkey
        match d.reply with
        | some replyMessage => sendPhase o d.st e now replyMessage true
        | none =>
          if hasTrigger message then
            let s := shouldSendAutoReply d.st now e.id e.pubkey
            if s.1 then sendPhase o s.2 e now (autoReplyBody o) false
            else ⟨s.2, ⟨true, true, none⟩, false⟩
          else ⟨d.st, ⟨true, true, none⟩, false⟩
    else ⟨st1, ⟨true, false, none⟩, false⟩

/-- Process a batch of (event, `Date.now()`) pairs in order, pairing each
event id with its step observables. A step that throws (encryption failure)
aborts the remainder of the batch, as the loop's outer `catch` does. -/
def runEvents (o : Oracles) :
    List (NEvent × Int) → DaemonState → DaemonState × List (String × StepTrace)
| [], st => (st, [])
| (e, now) :: rest, st =>
  let r := processEvent o st e now
  if r.aborted then (r.st, [(e.id, r.trace)])
  else
    let rr := runEvents o rest r.st
    (rr.1, (e.id, r.trace) :: rr.2)

/-- Number of steps of a batch run that attempted decryption of a given id. -/
def decryptCount (id : String) : List (String × StepTrace) → Nat
| [] => 0
| (a, tr) :: l =>
  (if a = id ∧ tr.decryptAttempted = true then 1 else 0) + decryptCount id l

/-- Number of steps of a batch run on a given id that survived the dedup
check (entered the decision pipeline). -/
def pipelineCount (id : String) : List (String × StepTrace) → Nat
| [] => 0
| (a, tr) :: l =>
  (if a = id ∧ tr.pipelineRan = true then 1 else 0) + pipelineCount id l

/-- A blocked-relay health entry as the legacy engine writes it. -/
def permEntryW : RateLimitEntry :=
  { lastErrorTime := 500, backoffUntil := JTime.inf,
    consecutiveFailures := JCount.inf }

/-- Health map holding one permanently blocked relay. -/
def permMapW : HealthMap := mapSet mapEmpty "wss://dead.example" permEntryW

/-- A round followed by a sweep, exercising both operations on `permMapW`. -/
def permOpsW : List HealthOp :=
  [HealthOp.round (fun _ => PubResult.fulfilled) (fun _ => 0) 1000
     ["wss://dead.example", "wss://ok.example"],
   HealthOp.sweep 2000000]

/-- Relay set and health map for the C9 witness: the only relay is rate
limited until time 100, the clock reads 50 at attempt 0 and 200 afterwards. -/
def c9MapW : HealthMap :=
  mapSet mapEmpty "wss://busy.example"
    { lastErrorTime := 0, backoffUntil := JTime.fin 100,
      consecutiveFailures := JCount.fin 1 }

/-- Clock of the C9 witness. -/
def c9NowsW : Nat → Int := fun a => if a = 0 then 50 else 200

/-- Relay outcomes of the C1 witness round: the first relay rate-limited,
the second permanently blocked, the third accepting. -/
def c1OutcomeW : Nat → String → PubResult := fun _ u =>
  if u = "wss://a.example" then PubResult.rejected "rate-limited by policy"
  else if u = "wss://b.example" then PubResult.rejected "pubkey is blocked"
  else PubResult.fulfilled

/-- Lookup of `senderConversations.get(sender).lastCommandTime[cmd]` through the
JS optional-field chain. -/
def senderLastCmd (st : DaemonState) (sender cmd : String) : Option Int :=
  match st.senderConversations sender with
  | some cs =>
    match cs.lastCommandTime with
    | some f => f cmd
    | none => none
  | none => none

/-- The conversation-phase observables of a sender:
`(lastReplyTime, conversationStart, messageCount)`, with the lazily-created
defaults for an absent entry. -/
def convView (st : DaemonState) (sender : String) :
    Option Int × Option Int × Int :=
  match st.senderConversations sender with
  | some c => (c.lastReplyTime, c.conversationStart, c.messageCount)
  | none => (none, none, 0)

/-- Oracle bundle for the C2 witness: everything succeeds. -/
def c2OracleW : Oracles :=
  { allowed := fun _ => true
    nip44Decrypt := fun _ _ => Except.ok "hello"
    nip04Decrypt := fun _ _ => Except.error "bad mac"
    nip44Encrypt := fun _ _ => Except.ok "ciphertext"
    nip04Encrypt := fun _ _ => Except.error "unused"
    handlers := fun _ => Except.ok "done"
    statusLine := ""
    configName := "OpenClaw"
    publishOk := fun _ => true }

/-- The event of the C2 witness, delivered twice. -/
def c2EventW : NEvent := ⟨"e1", "aaaa", "cipher"⟩

/-- A daemon state that has already seen the witness id. -/
def c2SeenStateW : DaemonState :=
  { emptyState with processedEvents := ["e1"] }

/-- Oracle whose preferred scheme fails and whose legacy scheme succeeds. -/
def c6FallbackO : Oracles :=
  { allowed := fun _ => true
    nip44Decrypt := fun _ _ => Except.error "invalid payload"
    nip04Decrypt := fun _ _ => Except.ok "legacy plaintext"
    nip44Encrypt := fun _ _ => Except.ok "ciphertext"
    nip04Encrypt := fun _ _ => Except.error "unused"
    handlers := fun _ => Except.ok "done"
    statusLine := ""
    configName := "OpenClaw"
    publishOk := fun _ => true }

/-- Oracle for which both decryption schemes fail. -/
def c6FailO : Oracles :=
  { allowed := fun _ => true
    nip44Decrypt := fun _ _ => Except.error "invalid payload"
    nip04Decrypt := fun _ _ => Except.error "bad mac"
    nip44Encrypt := fun _ _ => Except.ok "ciphertext"
    nip04Encrypt := fun _ _ => Except.error "unused"
    handlers := fun _ => Except.ok "done"
    statusLine := ""
    configName := "OpenClaw"
    publishOk := fun _ => true }

/-- Oracle bundle for the conversation-window scenario: every message
decrypts to the trigger word `hello`, encryption and publishing succeed. -/
def c3OracleW : Oracles :=
  { allowed := fun _ => true
    nip44Decrypt := fun _ _ => Except.ok "hello"
    nip04Decrypt := fun _ _ => Except.error "unused"
    nip44Encrypt := fun _ _ => Except.ok "ciphertext"
    nip04Encrypt := fun _ _ => Except.error "unused"
    handlers := fun _ => Except.ok "unused"
    statusLine := ""
    configName := "OpenClaw"
    publishOk := fun _ => true }

/-- Daemon state after the trigger at `t0` was answered. -/
def c3StateAfter1 (t0 : Int) (sender : String) : DaemonState :=
  { processedEvents := ["ev1"], repliedEvents := ["ev1"],
    senderConversations := mapSet mapEmpty sender ⟨some t0, none, 1, none⟩,
    commandCooldowns := mapEmpty }

/-- Daemon state after the suppressed trigger at `t0 + 30min`. -/
def c3StateAfter2 (t0 : Int) (sender : String) : DaemonState :=
  { processedEvents := ["ev2", "ev1"], repliedEvents := ["ev1"],
    senderConversations := mapSet mapEmpty sender ⟨some t0, none, 1, none⟩,
    commandCooldowns := mapEmpty }

/-- Daemon state after the trigger at `t0 + 61min` was answered again. -/
def c3StateAfter3 (t0 : Int) (sender : String) : DaemonState :=
  { processedEvents := ["ev3", "ev2", "ev1"], repliedEvents := ["ev3", "ev1"],
    senderConversations :=
      mapSet mapEmpty sender ⟨some (t0 + 3660000), none, 1, none⟩,
    commandCooldowns := mapEmpty }

/-! Helper lemmas about the map embedding. -/

theorem mapSet_apply_ne {α : Type} (m : String → Option α) (k k' : String)
    (v : α) (h : k' ≠ k) : mapSet m k v k' = m k' := by
  simp [mapSet, h]

theorem mapSet_apply_self {α : Type} (m : String → Option α) (k : String)
    (v : α) : mapSet m k v k = some v := by
  simp [mapSet]

theorem mapDel_apply_ne {α : Type} (m : String → Option α) (k k' : String)
    (h : k' ≠ k) : mapDel m k k' = m k' := by
  simp [mapDel, h]

theorem mapDel_apply_self {α : Type} (m : String → Option α) (k : String) :
    mapDel m k k = none := by
  simp [mapDel]

theorem classifyFailure_apply_ne (now j : Int) (m : HealthMap)
    (url reason k : String) (h : k ≠ url) :
    classifyFailure now j m url reason k = m k := by
  unfold classifyFailure
  split_ifs <;> simp [mapSet_apply_ne _ _ _ _ h]

/-- Frame lemma: `processResults` touches only the relays listed in the results. -/
theorem processResults_apply_notin (now : Int) (jit : String → Int)
    (results : List (String × PubResult)) (m : HealthMap) (url : String)
    (h : url ∉ results.map Prod.fst) :
    (processResults now jit m results).1 url = m url := by
  induction results generalizing m with
  | nil => rfl
  | cons p rest ih =>
    obtain ⟨u, pr⟩ := p
    simp only [List.map_cons, List.mem_cons, not_or] at h
    cases pr with
    | fulfilled =>
      simpa [processResults, ih _ h.2] using mapDel_apply_ne m u url h.1
    | rejected reason =>
      rw [processResults, ih _ h.2]
      exact classifyFailure_apply_ne now (jit u) m u reason url h.1

/-- A relay whose health entry carries `backoffUntil = Infinity` never
passes the per-round filter. -/
theorem not_mem_availableRelays_of_inf (m : HealthMap) (now : Int)
    (relays : List String) (url : String) (e : RateLimitEntry)
    (hm : m url = some e) (hinf : e.backoffUntil = JTime.inf) :
    url ∉ availableRelays m now relays := by
  intro hmem
  have := (List.mem_filter.mp hmem).2
  rw [hm] at this
  simp [hinf, JTime.gtNow] at this

/-- One round or sweep keeps a permanently-excluded relay's entry intact and
never selects that relay. -/
theorem applyHealthOp_inf_preserved (m : HealthMap) (op : HealthOp)
    (url : String) (e : RateLimitEntry) (hm : m url = some e)
    (hinf : e.backoffUntil = JTime.inf) :
    (applyHealthOp m op).1 url = some e ∧ url ∉ (applyHealthOp m op).2 := by
  cases op with
  | round outcome jit now relays =>
    by_cases hemp : (availableRelays m now relays).isEmpty = true
    · simp [applyHealthOp, hemp, hm]
    · have hnot := not_mem_availableRelays_of_inf m now relays url e hm hinf
      have hfst : ((availableRelays m now relays).map
          fun u => (u, outcome u)).map Prod.fst
          = availableRelays m now relays := by
        simp [Function.comp_def]
      constructor
      · simp only [applyHealthOp]
        rw [if_neg hemp]
        dsimp only
        rw [processResults_apply_notin _ _ _ _ _ (by rw [hfst]; exact hnot)]
        exact hm
      · simp only [applyHealthOp]
        rw [if_neg hemp]
        exact hnot
  | sweep now =>
    constructor
    · simp [applyHealthOp, cleanupRateLimits, hm, hinf, JTime.ltNow]
    · simp [applyHealthOp]

/-! C8 — the retry backoff formula of the current daemon. -/

/-- C8: for every retry attempt index, the computed delay equals
`min(BASE_BACKOFF_MS * 2^attempt, MAX_BACKOFF_MS)` plus a jitter sample that
lies in `[-JITTER_MS, +JITTER_MS]`, and the delay is non-negative; ignoring
jitter, the delays are non-decreasing in the attempt index, never exceed the
30000 ms cap, and take the values 2000, 4000, 8000 at attempts 0, 1, 2. -/
theorem backoff_formula_and_monotonicity (attempt r : Nat)
    (hr : (r : Int) < 2 * JITTER_MS) :
    backoffMs attempt r
        = min (2000 * 2 ^ attempt) 30000 + ((r : Int) - 1000)
      ∧ -JITTER_MS ≤ jitter r ∧ jitter r ≤ JITTER_MS
      ∧ 0 ≤ backoffMs attempt r
      ∧ (∀ a : Nat, backoffNoJitter a ≤ backoffNoJitter (a + 1))
      ∧ (∀ a : Nat, backoffNoJitter a ≤ MAX_BACKOFF_MS)
      ∧ backoffNoJitter 0 = 2000 ∧ backoffNoJitter 1 = 4000
      ∧ backoffNoJitter 2 = 8000 := by
  have hpow : ∀ a : Nat, (1 : Int) ≤ 2 ^ a := fun a =>
    one_le_pow₀ (by norm_num)
  have hmin : ∀ a : Nat, (2000 : Int) ≤ min (2000 * 2 ^ a) 30000 := by
    intro a
    refine le_min ?_ (by norm_num)
    nlinarith [hpow a]
  refine ⟨?_, ?_, ?_, ?_, ?_, ?_, ?_, ?_, ?_⟩
  · simp [backoffMs, jitter, BASE_BACKOFF_MS, MAX_BACKOFF_MS, JITTER_MS]
  · simp only [jitter, JITTER_MS]
    omega
  · simp only [jitter, JITTER_MS] at hr ⊢
    omega
  · simp only [backoffMs, jitter, BASE_BACKOFF_MS, MAX_BACKOFF_MS, JITTER_MS]
    linarith [hmin attempt, Int.natCast_nonneg r]
  · intro a
    simp only [backoffNoJitter, BASE_BACKOFF_MS, MAX_BACKOFF_MS]
    apply min_le_min _ le_rfl
    have h2 : (2 : Int) ^ a ≤ 2 ^ (a + 1) := by
      apply pow_le_pow_right₀ (by norm_num) (by omega)
    nlinarith
  · intro a
    exact min_le_right _ _
  · decide
  · decide
  · decide

/-- Witness for C8 at attempt 1 with jitter sample 0. -/
theorem backoff_formula_witness :
    backoffMs 1 0 = min (2000 * 2 ^ 1) 30000 + ((0 : Int) - 1000)
      ∧ 0 ≤ backoffMs 1 0 :=
  ⟨(backoff_formula_and_monotonicity 1 0 (by decide)).1,
   (backoff_formula_and_monotonicity 1 0 (by decide)).2.2.2.1⟩

/-! C7 — permanent exclusion survives rounds and housekeeping sweeps. -/

/-- C7: a relay whose health entry has `backoffUntil = Infinity` keeps that
entry unchanged across any sequence of publish rounds and housekeeping
sweeps, and is selected for a publish attempt in none of the rounds. -/
theorem permanent_exclusion (m : HealthMap) (ops : List HealthOp)
    (url : String) (e : RateLimitEntry) (hm : m url = some e)
    (hinf : e.backoffUntil = JTime.inf) :
    (runHealthOps m ops).1 url = some e
      ∧ ∀ sel ∈ (runHealthOps m ops).2, url ∉ sel := by
  induction ops generalizing m with
  | nil =>
    refine ⟨by simpa [runHealthOps] using hm, ?_⟩
    simp [runHealthOps]
  | cons op rest ih =>
    obtain ⟨h1, h2⟩ := applyHealthOp_inf_preserved m op url e hm hinf
    obtain ⟨h3, h4⟩ := ih _ h1
    refine ⟨by simpa [runHealthOps] using h3, ?_⟩
    intro sel hsel
    simp only [runHealthOps, List.mem_cons] at hsel
    rcases hsel with h | h
    · exact h ▸ h2
    · exact h4 sel h

/-- Witness for C7: after a round and a sweep the blocked relay's entry is
intact and it was never selected. -/
theorem permanent_exclusion_witness :
    (runHealthOps permMapW permOpsW).1 "wss://dead.example" = some permEntryW
      ∧ ∀ sel ∈ (runHealthOps permMapW permOpsW).2,
          "wss://dead.example" ∉ sel :=
  permanent_exclusion permMapW permOpsW "wss://dead.example" permEntryW
    (by rw [permMapW]; exact mapSet_apply_self _ _ _) rfl

/-! C9 — an empty filtered relay set waits a fixed penalty and retries. -/

/-- C9: when every relay is filtered out by its backoff (`availableRelays`
empty) and the round budget is not exhausted, the legacy publish loop does
not fail the round: it records a fixed 30000 ms penalty wait, leaves the
health map to the retry, and its overall verdict is exactly that of
re-running the engine at the next attempt index. -/
theorem empty_round_waits_penalty (outcome : Nat → String → PubResult)
    (jit : Nat → String → Int) (nows : Nat → Int) (relays : List String)
    (attempt remaining : Nat) (m : HealthMap)
    (h : (availableRelays m (nows attempt) relays).isEmpty = true) :
    publishRetryAux outcome jit nows relays attempt (remaining + 1) m =
      ((publishRetryAux outcome jit nows relays (attempt + 1) remaining m).1,
       (publishRetryAux outcome jit nows relays (attempt + 1) remaining m).2.1,
       PubAction.wait 30000 ::
         (publishRetryAux outcome jit nows relays (attempt + 1) remaining m).2.2) := by
  rw [publishRetryAux]
  simp only [h, if_true]

/-- Witness for C9: with every relay initially backing off, the run prepends
a fixed 30000 ms wait and continues as the retry does. -/
theorem empty_round_waits_penalty_witness :
    publishRetryAux (fun _ _ => PubResult.fulfilled) (fun _ _ => 0) c9NowsW
        ["wss://busy.example"] 0 3 c9MapW =
      ((publishRetryAux (fun _ _ => PubResult.fulfilled) (fun _ _ => 0) c9NowsW
          ["wss://busy.example"] 1 2 c9MapW).1,
       (publishRetryAux (fun _ _ => PubResult.fulfilled) (fun _ _ => 0) c9NowsW
          ["wss://busy.example"] 1 2 c9MapW).2.1,
       PubAction.wait 30000 ::
         (publishRetryAux (fun _ _ => PubResult.fulfilled) (fun _ _ => 0) c9NowsW
            ["wss://busy.example"] 1 2 c9MapW).2.2) :=
  empty_round_waits_penalty (fun _ _ => PubResult.fulfilled) (fun _ _ => 0)
    c9NowsW ["wss://busy.example"] 0 2 c9MapW (by decide)

/-! C1 — at-least-one-of-N round semantics of the publish engine. -/

/-- C1: in a publish round over three relays with clean health entries where
the first two fail (one rate-limited, one permanently blocked) and the third
succeeds, `publishWithRetry` reports overall success for that round, and
only the two failing relays' health entries change: the rate-limited relay
gets a finite backoff with `consecutiveFailures = 1`, the blocked relay the
`Infinity` entry, and every other key of the health map is untouched. -/
theorem publish_at_least_one_of_N (m : HealthMap)
    (r1 r2 r3 reason1 reason2 : String) (jit : Nat → String → Int)
    (nows : Nat → Int) (outcome : Nat → String → PubResult)
    (h12 : r1 ≠ r2) (h13 : r1 ≠ r3) (h23 : r2 ≠ r3)
    (hm1 : m r1 = none) (hm2 : m r2 = none) (hm3 : m r3 = none)
    (ho1 : outcome 0 r1 = PubResult.rejected reason1)
    (ho2 : outcome 0 r2 = PubResult.rejected reason2)
    (ho3 : outcome 0 r3 = PubResult.fulfilled)
    (hr1 : isRateLimitReason reason1 = true)
    (hr2 : isRateLimitReason reason2 = false)
    (hp2 : isPermanentReason reason2 = true) :
    (publishWithRetryLegacy outcome jit nows [r1, r2, r3] MAX_RETRIES m).1
        = true
      ∧ (∀ u, u ≠ r1 → u ≠ r2 →
          (publishWithRetryLegacy outcome jit nows [r1, r2, r3]
            MAX_RETRIES m).2.1 u = m u)
      ∧ (publishWithRetryLegacy outcome jit nows [r1, r2, r3]
            MAX_RETRIES m).2.1 r1
          = some ⟨nows 0,
              JTime.fin (nows 0 + getBackoffDelay (JCount.fin 0) (jit 0 r1)),
              JCount.fin 1⟩
      ∧ (publishWithRetryLegacy outcome jit nows [r1, r2, r3]
            MAX_RETRIES m).2.1 r2
          = some ⟨nows 0, JTime.inf, JCount.inf⟩
      ∧ (publishWithRetryLegacy outcome jit nows [r1, r2, r3]
            MAX_RETRIES m).2.1 r1 ≠ m r1
      ∧ (publishWithRetryLegacy outcome jit nows [r1, r2, r3]
            MAX_RETRIES m).2.1 r2 ≠ m r2 := by
  have havail : availableRelays m (nows 0) [r1, r2, r3] = [r1, r2, r3] := by
    simp [availableRelays, List.filter, hm1, hm2, hm3]
  have hrun : publishWithRetryLegacy outcome jit nows [r1, r2, r3]
      MAX_RETRIES m =
      (true,
       mapDel (mapSet (mapSet m r1
         ⟨nows 0,
          JTime.fin (nows 0 + getBackoffDelay (JCount.fin 0) (jit 0 r1)),
          JCount.fin 1⟩) r2
         ⟨nows 0, JTime.inf, JCount.inf⟩) r3,
       [PubAction.publishTo [r1, r2, r3]]) := by
    rw [publishWithRetryLegacy, MAX_RETRIES, publishRetryAux]
    rw [havail]
    rw [if_neg (by simp : ¬([r1, r2, r3].isEmpty = true))]
    simp only [List.map_cons, List.map_nil, ho1, ho2, ho3]
    rw [processResults]
    have hc1 : classifyFailure (nows 0) (jit 0 r1) m r1 reason1 =
        mapSet m r1
          ⟨nows 0,
           JTime.fin (nows 0 + getBackoffDelay (JCount.fin 0) (jit 0 r1)),
           JCount.fin 1⟩ := by
      rw [classifyFailure]
      simp [hr1, hm1, JCount.succ]
    rw [hc1, processResults]
    have hc2 : ∀ mm : HealthMap, classifyFailure (nows 0) (jit 0 r2) mm r2
        reason2 = mapSet mm r2 ⟨nows 0, JTime.inf, JCount.inf⟩ := by
      intro mm
      rw [classifyFailure]
      simp [hr2, hp2]
    rw [hc2, processResults, processResults]
    simp
  refine ⟨by rw [hrun], ?_, ?_, ?_, ?_, ?_⟩
  · intro u hu1 hu2
    rw [hrun]
    dsimp only
    by_cases hu3 : u = r3
    · subst hu3
      rw [hm3]
      exact mapDel_apply_self _ _
    · rw [mapDel_apply_ne _ _ _ hu3, mapSet_apply_ne _ _ _ _ hu2,
        mapSet_apply_ne _ _ _ _ hu1]
  · rw [hrun]
    dsimp only
    rw [mapDel_apply_ne _ _ _ h13, mapSet_apply_ne _ _ _ _ h12,
      mapSet_apply_self]
  · rw [hrun]
    dsimp only
    rw [mapDel_apply_ne _ _ _ h23, mapSet_apply_self]
  · rw [hrun]
    dsimp only
    rw [mapDel_apply_ne _ _ _ h13, mapSet_apply_ne _ _ _ _ h12,
      mapSet_apply_self, hm1]
    simp
  · rw [hrun]
    dsimp only
    rw [mapDel_apply_ne _ _ _ h23, mapSet_apply_self, hm2]
    simp

/-- Witness for C1 on a concrete round with clean health state. -/
theorem publish_at_least_one_of_N_witness :
    (publishWithRetryLegacy c1OutcomeW (fun _ _ => 7) (fun _ => 1000)
        ["wss://a.example", "wss://b.example", "wss://c.example"]
        MAX_RETRIES mapEmpty).1 = true
      ∧ (publishWithRetryLegacy c1OutcomeW (fun _ _ => 7) (fun _ => 1000)
          ["wss://a.example", "wss://b.example", "wss://c.example"]
          MAX_RETRIES mapEmpty).2.1 "wss://c.example" = none :=
  have h := publish_at_least_one_of_N mapEmpty "wss://a.example"
    "wss://b.example" "wss://c.example" "rate-limited by policy"
    "pubkey is blocked" (fun _ _ => 7) (fun _ => 1000) c1OutcomeW
    (by decide) (by decide) (by decide) rfl rfl rfl (by decide) (by decide)
    (by decide) (by decide) (by decide) (by decide)
  ⟨h.1, by
    have := h.2.1 "wss://c.example" (by decide) (by decide)
    simpa [mapEmpty] using this⟩

/-! C4 — dispatcher outcome handling. The claim's third sentence fails on
the code: `markCommandExecuted` is called only on handler success, not on a
caught failure. -/

/-- C4 counterexample: a matched command whose handler throws is converted
to the user-facing error reply (so the outcome is a caught failure, not a
cooldown block, and the handler was invoked), yet the dispatcher state is
returned untouched — the global cooldown timestamp that
`markCommandExecuted` would have written is still absent. -/
theorem command_failure_skips_markExecuted :
    (detectAndExecuteCommand (fun _ => Except.error "boom") emptyState 5
        "🦀status" "alice").reply = some "❌ Error: boom"
      ∧ (detectAndExecuteCommand (fun _ => Except.error "boom") emptyState 5
          "🦀status" "alice").invoked = ["status"]
      ∧ (detectAndExecuteCommand (fun _ => Except.error "boom") emptyState 5
          "🦀status" "alice").st.commandCooldowns "status" = none
      ∧ (markCommandExecuted emptyState 5 "status" "alice").commandCooldowns
          "status" = some 5 := by
  refine ⟨?_, ?_, ?_, ?_⟩ <;> decide

/-- C4 (amended): for every matched command, a cooldown block returns the
notice without invoking the action and without `markCommandExecuted`; a
thrown failure of the action is caught and answered with the
`"❌ Error: <message>"` reply, also without `markCommandExecuted`; and only
a successful action outcome is followed by `markCommandExecuted`. In every
case the dispatcher returns normally (it never propagates the failure). -/
theorem command_dispatch_outcomes (handlers : String → Except String String)
    (st : DaemonState) (now : Int) (message sender name : String)
    (hm : matchCommand message = some name) :
    (∀ rem reason,
        isCommandOnCooldown st now name sender
            = CooldownResult.blocked rem reason →
        detectAndExecuteCommand handlers st now message sender
          = ⟨some (cooldownNotice rem), st, []⟩)
      ∧ (∀ e, isCommandOnCooldown st now name sender = CooldownResult.free →
          handlers name = Except.error e →
          detectAndExecuteCommand handlers st now message sender
            = ⟨some ("❌ Error: " ++ e), st, [name]⟩)
      ∧ (∀ r, isCommandOnCooldown st now name sender = CooldownResult.free →
          handlers name = Except.ok r →
          detectAndExecuteCommand handlers st now message sender
            = ⟨some r, markCommandExecuted st now name sender, [name]⟩) := by
  refine ⟨?_, ?_, ?_⟩
  · intro rem reason h
    simp [detectAndExecuteCommand, hm, h]
  · intro e h he
    simp [detectAndExecuteCommand, hm, h, he]
  · intro r h hr
    simp [detectAndExecuteCommand, hm, h, hr]

/-- Witness for the amended C4: a concrete failing `🦀status` command is
answered with the error reply and leaves the state untouched. -/
theorem command_dispatch_outcomes_witness :
    detectAndExecuteCommand (fun _ => Except.error "offline") emptyState 9
        "please run 🦀status now" "bob"
      = ⟨some ("❌ Error: " ++ "offline"), emptyState, ["status"]⟩ :=
  (command_dispatch_outcomes (fun _ => Except.error "offline") emptyState 9
      "please run 🦀status now" "bob" "status" (by decide)).2.1 "offline"
    (by decide) rfl

/-! C5 — layered cooldown gates. -/

/-- C5: the global gate is evaluated first and reports scope `global` with
its own remaining time whenever it blocks; with a clear global gate the
per-sender gate reports scope `sender`; a `free` verdict implies both gates
passed; `markCommandExecuted` stamps both the global timestamp and the
sender's `lastCommandTime[cmd]`; and after an execution at a truthy time
`now`, any invocation of the same command by any sender strictly inside the
cooldown window is blocked by the global gate and the dispatcher answers it
with the cooldown notice without running the action. -/
theorem cooldown_gate_layers (st : DaemonState) (now now' t : Int)
    (cmd sender sender' : String) :
    (st.commandCooldowns cmd = some t → t ≠ 0 →
        now - t < cooldownTimeOf cmd →
        isCommandOnCooldown st now cmd sender
          = CooldownResult.blocked
              (jsCeilDiv1000 (cooldownTimeOf cmd - (now - t))) "global")
      ∧ (st.commandCooldowns cmd = none →
          senderLastCmd st sender cmd = some t → t ≠ 0 →
          now - t < cooldownTimeOf cmd →
          isCommandOnCooldown st now cmd sender
            = CooldownResult.blocked
                (jsCeilDiv1000 (cooldownTimeOf cmd - (now - t))) "sender")
      ∧ (isCommandOnCooldown st now cmd sender = CooldownResult.free →
          (∀ tg, st.commandCooldowns cmd = some tg → tg ≠ 0 →
            cooldownTimeOf cmd ≤ now - tg)
          ∧ (∀ ts, senderLastCmd st sender cmd = some ts → ts ≠ 0 →
              cooldownTimeOf cmd ≤ now - ts))
      ∧ (markCommandExecuted st now cmd sender).commandCooldowns cmd = some now
      ∧ senderLastCmd (markCommandExecuted st now cmd sender) sender cmd
          = some now
      ∧ (now ≠ 0 → now' - now < cooldownTimeOf cmd →
          isCommandOnCooldown (markCommandExecuted st now cmd sender) now' cmd
              sender'
            = CooldownResult.blocked
                (jsCeilDiv1000 (cooldownTimeOf cmd - (now' - now))) "global"
          ∧ ∀ handlers message, matchCommand message = some cmd →
              detectAndExecuteCommand handlers
                  (markCommandExecuted st now cmd sender) now' message sender'
                = ⟨some (cooldownNotice
                    (jsCeilDiv1000 (cooldownTimeOf cmd - (now' - now)))),
                   markCommandExecuted st now cmd sender, []⟩) := by
  have hmark : (markCommandExecuted st now cmd sender).commandCooldowns cmd
      = some now := by
    unfold markCommandExecuted
    cases st.senderConversations sender <;>
      simp [mapSet_apply_self]
  have hmarkSender : senderLastCmd (markCommandExecuted st now cmd sender)
      sender cmd = some now := by
    unfold markCommandExecuted senderLastCmd
    cases hsc : st.senderConversations sender with
    | none => simp [mapSet]
    | some cs =>
      cases hlct : cs.lastCommandTime <;>
        simp [hlct, mapSet]
  refine ⟨?_, ?_, ?_, hmark, hmarkSender, ?_⟩
  · intro hg ht hb
    simp [isCommandOnCooldown, hg, ht, hb]
  · intro hg hs ht hb
    unfold senderLastCmd at hs
    cases hsc : st.senderConversations sender with
    | none => simp [hsc] at hs
    | some cs =>
      simp only [hsc] at hs
      cases hlct : cs.lastCommandTime with
      | none => simp [hlct] at hs
      | some f =>
        simp only [hlct] at hs
        simp [isCommandOnCooldown, hg, senderGate, hsc, hlct, hs, ht, hb]
  · intro hfree
    constructor
    · intro tg hg htg
      by_contra hlt
      rw [isCommandOnCooldown] at hfree
      simp only [hg] at hfree
      rw [if_pos ⟨htg, lt_of_not_le hlt⟩] at hfree
      exact CooldownResult.noConfusion hfree
    · intro ts hs hts
      by_contra hlt
      have hblock : senderGate st now cmd sender (cooldownTimeOf cmd)
          = CooldownResult.blocked
              (jsCeilDiv1000 (cooldownTimeOf cmd - (now - ts))) "sender" := by
        unfold senderLastCmd at hs
        cases hsc : st.senderConversations sender with
        | none => simp [hsc] at hs
        | some cs =>
          simp only [hsc] at hs
          cases hlct : cs.lastCommandTime with
          | none => simp [hlct] at hs
          | some f =>
            simp only [hlct] at hs
            simp [senderGate, hsc, hlct, hs, hts, lt_of_not_le hlt]
      rw [isCommandOnCooldown] at hfree
      cases hg : st.commandCooldowns cmd with
      | none =>
        simp only [hg, hblock] at hfree
        exact CooldownResult.noConfusion hfree
      | some tg =>
        simp only [hg] at hfree
        by_cases hcond : tg ≠ 0 ∧ now - tg < cooldownTimeOf cmd
        · rw [if_pos hcond] at hfree
          exact CooldownResult.noConfusion hfree
        · rw [if_neg hcond, hblock] at hfree
          exact CooldownResult.noConfusion hfree
  · intro hnz hwin
    have hblocked : isCommandOnCooldown (markCommandExecuted st now cmd sender)
        now' cmd sender'
        = CooldownResult.blocked
            (jsCeilDiv1000 (cooldownTimeOf cmd - (now' - now))) "global" := by
      simp [isCommandOnCooldown, hmark, hnz, hwin]
    refine ⟨hblocked, ?_⟩
    intro handlers message hmatch
    simp [detectAndExecuteCommand, hmatch, hblocked]

/-- Witness for C5: after `alice` runs `🦀restart` at time 1000, `bob`'s
attempt at time 2000 is blocked by the global gate with 59 seconds
remaining, and the dispatcher answers with the cooldown notice. -/
theorem cooldown_gate_layers_witness :
    isCommandOnCooldown (markCommandExecuted emptyState 1000 "restart" "alice")
        2000 "restart" "bob"
      = CooldownResult.blocked 59 "global" := by
  have h := ((cooldown_gate_layers emptyState 1000 2000 0 "restart" "alice"
      "bob").2.2.2.2.2 (by decide) (by decide)).1
  have hv : jsCeilDiv1000 (cooldownTimeOf "restart" - (2000 - 1000)) = 59 := by
    decide
  rw [hv] at h
  exact h

/-! C10 — executing a command never touches the auto-reply observables. -/

theorem markExec_processed_eq (st : DaemonState) (now : Int)
    (cmd sender : String) :
    (markCommandExecuted st now cmd sender).processedEvents
      = st.processedEvents := by
  unfold markCommandExecuted
  cases st.senderConversations sender <;> simp

theorem markExec_replied_eq (st : DaemonState) (now : Int)
    (cmd sender : String) :
    (markCommandExecuted st now cmd sender).repliedEvents
      = st.repliedEvents := by
  unfold markCommandExecuted
  cases st.senderConversations sender <;> simp

theorem markExec_convView_eq (st : DaemonState) (now : Int)
    (cmd sender s : String) :
    convView (markCommandExecuted st now cmd sender) s = convView st s := by
  unfold markCommandExecuted convView
  by_cases hs : s = sender
  · subst hs
    cases hsc : st.senderConversations s <;>
      simp [hsc, mapSet_apply_self]
  · cases hsc : st.senderConversations sender <;>
      simp [hsc, mapSet_apply_ne _ _ _ _ hs]

/-- The `lastReplyTime` produced by `getConversationState` is a function of
the sender's conversation-phase view alone. -/
theorem getConv_result_lastReply (st : DaemonState) (now : Int) (s : String) :
    (getConversationState st now s).1.lastReplyTime =
      (if truthyNum (convView st s).1 ∧
          CONVERSATION_TIMEOUT_MS < now - (convView st s).1.getD 0 then none
       else (convView st s).1) := by
  unfold getConversationState convView
  cases hsc : st.senderConversations s with
  | none => simp [truthyNum]
  | some c =>
    simp only
    split_ifs <;> simp

/-- The decision bit of `shouldSendAutoReply`, written as a function of the
ledger and the conversation state's `lastReplyTime`. -/
theorem shouldSend_fst (st : DaemonState) (now : Int) (eid s : String) :
    (shouldSendAutoReply st now eid s).1 =
      (if eid ∈ st.repliedEvents then false
       else match (getConversationState st now s).1.lastReplyTime with
         | some t =>
           if t ≠ 0 ∧ now - t < CONVERSATION_TIMEOUT_MS then false else true
         | none => true) := by
  unfold shouldSendAutoReply
  by_cases hmem : eid ∈ st.repliedEvents
  · simp [hmem]
  · simp only [hmem, if_neg, if_false]
    cases h : (getConversationState st now s).1.lastReplyTime with
    | none => simp [h]
    | some t =>
      simp only [h]
      split_ifs <;> rfl

/-- Two states with the same replied ledger and the same conversation views
decide `shouldSendAutoReply` identically. -/
theorem shouldSend_eq_of_view (st st' : DaemonState)
    (hrep : st'.repliedEvents = st.repliedEvents)
    (hview : ∀ s, convView st' s = convView st s) (now2 : Int)
    (eid s : String) :
    (shouldSendAutoReply st' now2 eid s).1
      = (shouldSendAutoReply st now2 eid s).1 := by
  have heq : (getConversationState st' now2 s).1.lastReplyTime
      = (getConversationState st now2 s).1.lastReplyTime := by
    rw [getConv_result_lastReply, getConv_result_lastReply, hview s]
  rw [shouldSend_fst, shouldSend_fst, hrep, heq]

theorem sendPhase_command_st (o : Oracles) (st : DaemonState) (e : NEvent)
    (now : Int) (replyMessage : String) :
    (sendPhase o st e now replyMessage true).st = st := by
  unfold sendPhase
  cases h : encryptDM o replyMessage e.pubkey with
  | error e' => rfl
  | ok c =>
    by_cases hp : o.publishOk e.id = true <;> simp [hp]

/-- C10: `markCommandExecuted` changes neither dedup ledger, leaves every
sender's `(lastReplyTime, conversationStart, messageCount)` view unchanged
(creating only the default entry when none existed), and therefore leaves
every later `shouldSendAutoReply` decision unchanged; the command branch of
the post-publish update leaves the daemon state untouched; and whatever the
dispatcher outcome, its resulting state keeps the replied ledger, the
conversation views, and the auto-reply decisions of the input state. -/
theorem command_execution_frame (st : DaemonState) (now : Int)
    (cmd sender : String) :
    (markCommandExecuted st now cmd sender).processedEvents
        = st.processedEvents
      ∧ (markCommandExecuted st now cmd sender).repliedEvents
          = st.repliedEvents
      ∧ (∀ s, convView (markCommandExecuted st now cmd sender) s
          = convView st s)
      ∧ (∀ now2 : Int, ∀ eid s : String,
          (shouldSendAutoReply (markCommandExecuted st now cmd sender) now2
            eid s).1 = (shouldSendAutoReply st now2 eid s).1)
      ∧ (∀ (o : Oracles) (e : NEvent) (replyMessage : String),
          (sendPhase o st e now replyMessage true).st = st)
      ∧ (∀ (handlers : String → Except String String) (message : String),
          (detectAndExecuteCommand handlers st now message sender).st.repliedEvents
              = st.repliedEvents
            ∧ (∀ s, convView
                (detectAndExecuteCommand handlers st now message sender).st s
                = convView st s)
            ∧ (∀ now2 : Int, ∀ eid s : String,
                (shouldSendAutoReply
                  (detectAndExecuteCommand handlers st now message sender).st
                  now2 eid s).1
                = (shouldSendAutoReply st now2 eid s).1)) := by
  refine ⟨markExec_processed_eq st now cmd sender,
    markExec_replied_eq st now cmd sender,
    fun s => markExec_convView_eq st now cmd sender s,
    fun now2 eid s => shouldSend_eq_of_view st _
      (markExec_replied_eq st now cmd sender)
      (fun s' => markExec_convView_eq st now cmd sender s') now2 eid s,
    fun o e replyMessage => sendPhase_command_st o st e now replyMessage,
    ?_⟩
  intro handlers message
  have hcases : (detectAndExecuteCommand handlers st now message sender).st = st
      ∨ ∃ n, (detectAndExecuteCommand handlers st now message sender).st
          = markCommandExecuted st now n sender := by
    cases hm : matchCommand message with
    | none => exact Or.inl (by simp [detectAndExecuteCommand, hm])
    | some name =>
      cases hc : isCommandOnCooldown st now name sender with
      | blocked r rs =>
        exact Or.inl (by simp [detectAndExecuteCommand, hm, hc])
      | free =>
        cases hh : handlers name with
        | ok r =>
          exact Or.inr ⟨name, by simp [detectAndExecuteCommand, hm, hc, hh]⟩
        | error e =>
          exact Or.inl (by simp [detectAndExecuteCommand, hm, hc, hh])
  rcases hcases with h | ⟨n, h⟩
  · rw [h]
    exact ⟨rfl, fun s => rfl, fun now2 eid s => rfl⟩
  · rw [h]
    exact ⟨markExec_replied_eq st now n sender,
      fun s => markExec_convView_eq st now n sender s,
      fun now2 eid s => shouldSend_eq_of_view st _
        (markExec_replied_eq st now n sender)
        (fun s' => markExec_convView_eq st now n sender s') now2 eid s⟩

/-! C2 — the seen-id ledger makes the pipeline run at most once per id. -/

theorem setAdd_mem_self (s : List String) (x : String) : x ∈ setAdd s x := by
  unfold setAdd
  split_ifs with h
  · exact h
  · exact List.mem_cons_self x s

theorem setAdd_mem_of_mem (s : List String) (x y : String) (h : y ∈ s) :
    y ∈ setAdd s x := by
  unfold setAdd
  split_ifs
  · exact h
  · exact List.mem_cons_of_mem x h

theorem shouldSend_processed_eq (st : DaemonState) (now : Int)
    (eid s : String) :
    (shouldSendAutoReply st now eid s).2.processedEvents
      = st.processedEvents := by
  unfold shouldSendAutoReply
  by_cases hmem : eid ∈ st.repliedEvents
  · simp [hmem]
  · simp only [hmem, if_false]
    cases h : (getConversationState st now s).1.lastReplyTime with
    | none => simp [h, getConversationState]
    | some t =>
      simp only [h]
      split_ifs <;> simp [getConversationState]

theorem applyAutoReply_processed_eq (st : DaemonState) (now : Int)
    (eid s : String) :
    (applyAutoReplyUpdate st now eid s).processedEvents
      = st.processedEvents := by
  simp [applyAutoReplyUpdate, getConversationState]

theorem dispatch_processed_eq (handlers : String → Except String String)
    (st : DaemonState) (now : Int) (message sender : String) :
    (detectAndExecuteCommand handlers st now message sender).st.processedEvents
      = st.processedEvents := by
  cases hm : matchCommand message with
  | none => simp [detectAndExecuteCommand, hm]
  | some name =>
    cases hc : isCommandOnCooldown st now name sender with
    | blocked r rs => simp [detectAndExecuteCommand, hm, hc]
    | free =>
      cases hh : handlers name with
      | ok r =>
        simp [detectAndExecuteCommand, hm, hc, hh, markExec_processed_eq]
      | error e => simp [detectAndExecuteCommand, hm, hc, hh]

theorem sendPhase_processed_eq (o : Oracles) (st : DaemonState) (e : NEvent)
    (now : Int) (replyMessage : String) (isCommand : Bool) :
    (sendPhase o st e now replyMessage isCommand).st.processedEvents
      = st.processedEvents := by
  unfold sendPhase
  cases h : encryptDM o replyMessage e.pubkey with
  | error e' => rfl
  | ok c =>
    by_cases hp : o.publishOk e.id = true
    · cases isCommand <;> simp [hp, applyAutoReply_processed_eq]
    · simp [hp]

/-- An already-seen event id is skipped whole: no decryption, no reply, no
state change. The membership test is the first thing the loop body does. -/
theorem processEvent_seen (o : Oracles) (st : DaemonState) (e : NEvent)
    (now : Int) (h : e.id ∈ st.processedEvents) :
    processEvent o st e now = ⟨st, ⟨false, false, none⟩, false⟩ := by
  simp [processEvent, h]

/-- Processing an event always leaves its id recorded, and touches the seen
ledger in no other way. -/
theorem processEvent_processed (o : Oracles) (st : DaemonState) (e : NEvent)
    (now : Int) :
    (processEvent o st e now).st.processedEvents
      = setAdd st.processedEvents e.id := by
  by_cases h : e.id ∈ st.processedEvents
  · rw [processEvent_seen o st e now h]
    simp [setAdd, h]
  · unfold processEvent
    simp only [h, if_false]
    by_cases ha : o.allowed e.pubkey = true
    · simp only [ha, if_true]
      cases hd : decryptDM o e.content e.pubkey with
      | error err => simp
      | ok message =>
        simp only
        cases hr : (detectAndExecuteCommand o.handlers
            { st with processedEvents := setAdd st.processedEvents e.id }
            now message e.pubkey).reply with
        | some rm =>
          simp only [hr, sendPhase_processed_eq, dispatch_processed_eq]
        | none =>
          simp only [hr]
          by_cases htr : hasTrigger message = true
          · simp only [htr, if_true]
            by_cases hsd : (shouldSendAutoReply (detectAndExecuteCommand
                o.handlers { st with
                  processedEvents := setAdd st.processedEvents e.id }
                now message e.pubkey).st now e.id e.pubkey).1 = true
            · simp [hsd, sendPhase_processed_eq, shouldSend_processed_eq,
                dispatch_processed_eq]
            · simp [hsd, shouldSend_processed_eq, dispatch_processed_eq]
          · simp [htr, dispatch_processed_eq]
    · simp [ha]

/-- A batch starting from a state that has already seen an id never runs the
pipeline for it again. -/
theorem runEvents_seen_zero (o : Oracles) (evs : List (NEvent × Int)) :
    ∀ st id, id ∈ st.processedEvents →
      pipelineCount id (runEvents o evs st).2 = 0
      ∧ decryptCount id (runEvents o evs st).2 = 0 := by
  induction evs with
  | nil => intro st id _; exact ⟨rfl, rfl⟩
  | cons p rest ih =>
    intro st id h
    obtain ⟨e, now⟩ := p
    by_cases hid : e.id = id
    · have hseen : e.id ∈ st.processedEvents := by rw [hid]; exact h
      rw [runEvents, processEvent_seen o st e now hseen]
      obtain ⟨h1, h2⟩ := ih st id h
      constructor <;> simp [pipelineCount, decryptCount, h1, h2]
    · have hmem : id ∈ (processEvent o st e now).st.processedEvents := by
        rw [processEvent_processed]
        exact setAdd_mem_of_mem _ _ _ h
      rw [runEvents]
      by_cases hab : (processEvent o st e now).aborted = true
      · simp [hab, pipelineCount, decryptCount, hid]
      · obtain ⟨h1, h2⟩ := ih _ id hmem
        simp [hab, pipelineCount, decryptCount, hid, h1, h2]

/-- C2: over any batch of delivered events — including the same event id
delivered several times — the steps that survive the seen-id check number at
most one per id, decryption is attempted at most once per id, and both
counts are zero when the id was already seen before the batch; moreover the
membership test (which also marks the id) precedes decryption: a step on an
already-seen id returns with no decryption attempt and no state change. -/
theorem dedup_pipeline_at_most_once (o : Oracles) (evs : List (NEvent × Int))
    (st : DaemonState) (id : String) :
    pipelineCount id (runEvents o evs st).2 ≤ 1
      ∧ decryptCount id (runEvents o evs st).2 ≤ 1
      ∧ (id ∈ st.processedEvents →
          pipelineCount id (runEvents o evs st).2 = 0
          ∧ decryptCount id (runEvents o evs st).2 = 0)
      ∧ (∀ (e : NEvent) (now : Int), e.id ∈ st.processedEvents →
          processEvent o st e now = ⟨st, ⟨false, false, none⟩, false⟩) := by
  refine ⟨?_, ?_, runEvents_seen_zero o evs st id,
    fun e now h => processEvent_seen o st e now h⟩
  all_goals
    induction evs generalizing st with
    | nil => simp [runEvents, pipelineCount, decryptCount]
    | cons p rest ih =>
      obtain ⟨e, now⟩ := p
      by_cases hid : e.id = id
      · by_cases hseen : id ∈ st.processedEvents
        · have h0 := runEvents_seen_zero o ((e, now) :: rest) st id hseen
          omega
        · have hmem : id ∈ (processEvent o st e now).st.processedEvents := by
            rw [processEvent_processed, ← hid]
            exact setAdd_mem_self _ _
          rw [runEvents]
          by_cases hab : (processEvent o st e now).aborted = true
          · simp only [hab, if_true]
            simp [pipelineCount, decryptCount]
            split_ifs <;> simp
          · have h0 := runEvents_seen_zero o rest _ id hmem
            simp only [hab, if_false, Bool.false_eq_true]
            simp [pipelineCount, decryptCount, h0.1, h0.2]
            split_ifs <;> simp
      · rw [runEvents]
        by_cases hab : (processEvent o st e now).aborted = true
        · simp [hab, pipelineCount, decryptCount, hid]
        · have hr := ih (processEvent o st e now).st
          simp only [hab, if_false, Bool.false_eq_true]
          simp [pipelineCount, decryptCount, hid]
          exact hr

/-- Witness for C2: with `e1` already seen the pipeline count of a
double-delivery batch is zero, and from a fresh state it is at most one. -/
theorem dedup_pipeline_witness :
    pipelineCount "e1"
        (runEvents c2OracleW [(c2EventW, 5), (c2EventW, 6)] c2SeenStateW).2 = 0
      ∧ decryptCount "e1"
          (runEvents c2OracleW [(c2EventW, 5), (c2EventW, 6)] emptyState).2
          ≤ 1 :=
  ⟨((dedup_pipeline_at_most_once c2OracleW [(c2EventW, 5), (c2EventW, 6)]
      c2SeenStateW "e1").2.2.1 (by decide)).1,
   (dedup_pipeline_at_most_once c2OracleW [(c2EventW, 5), (c2EventW, 6)]
      emptyState "e1").2.1⟩

/-! C6 — scheme fallback and silent drop on total decryption failure. -/

/-- C6: when the preferred NIP-44 decryption fails, a NIP-04 (legacy)
success still decrypts the message; when NIP-04 also fails, `decryptDM`
fails with the decryption error naming both schemes, and the polling-loop
step for that event drops it silently — it returns normally (no abort), with
no reply and no state change beyond marking the id seen. -/
theorem decrypt_fallback_and_silent_drop (o : Oracles) (st : DaemonState)
    (e : NEvent) (now : Int) (m e44 : String)
    (h44 : o.nip44Decrypt e.content e.pubkey = Except.error e44) :
    (o.nip04Decrypt e.content e.pubkey = Except.ok m →
        decryptDM o e.content e.pubkey = Except.ok m)
      ∧ (∀ e04, o.nip04Decrypt e.content e.pubkey = Except.error e04 →
          decryptDM o e.content e.pubkey
              = Except.error
                  ("Decryption failed (both NIP-44 and NIP-04): " ++ e04)
            ∧ (e.id ∉ st.processedEvents → o.allowed e.pubkey = true →
                processEvent o st e now
                  = ⟨{ st with
                        processedEvents := setAdd st.processedEvents e.id },
                     ⟨true, true, none⟩, false⟩)) := by
  constructor
  · intro h04
    simp [decryptDM, h44, h04]
  · intro e04 h04
    have hd : decryptDM o e.content e.pubkey
        = Except.error
            ("Decryption failed (both NIP-44 and NIP-04): " ++ e04) := by
      simp [decryptDM, h44, h04]
    refine ⟨hd, ?_⟩
    intro hmem hal
    simp [processEvent, hmem, hal, hd]

/-- Witness for C6: a legacy-encrypted ciphertext still decrypts after the
preferred scheme fails, and a doubly-undecryptable event yields the
two-scheme decryption error. -/
theorem decrypt_fallback_witness :
    decryptDM c6FallbackO "ct" "aaaa" = Except.ok "legacy plaintext"
      ∧ decryptDM c6FailO "ct" "aaaa"
          = Except.error
              ("Decryption failed (both NIP-44 and NIP-04): " ++ "bad mac") :=
  ⟨(decrypt_fallback_and_silent_drop c6FallbackO emptyState ⟨"e", "aaaa", "ct"⟩
      0 "legacy plaintext" "invalid payload" rfl).1 rfl,
   ((decrypt_fallback_and_silent_drop c6FailO emptyState ⟨"e", "aaaa", "ct"⟩
      0 "unusedm" "invalid payload" rfl).2 "bad mac" rfl).1⟩

/-! C3 — at most one auto-reply per conversation window. -/

/-- Writing the same key twice keeps only the second value. -/
theorem mapSet_mapSet {α : Type} (m : String → Option α) (k : String)
    (a b : α) : mapSet (mapSet m k a) k b = mapSet m k b := by
  funext k'
  unfold mapSet
  split_ifs <;> rfl

theorem c3_step1 (t0 : Int) (sender : String) :
    processEvent c3OracleW emptyState ⟨"ev1", sender, "c1"⟩ t0
      = ⟨c3StateAfter1 t0 sender,
         ⟨true, true, some (autoReplyBody c3OracleW)⟩, false⟩ := by
  have hmc : matchCommand "hello" = none := by decide
  have htr : hasTrigger "hello" = true := by decide
  simp [processEvent, emptyState, c3OracleW, decryptDM, detectAndExecuteCommand,
    hmc, htr, shouldSendAutoReply, getConversationState, sendPhase, encryptDM,
    applyAutoReplyUpdate, truthyNum, mapEmpty, mapSet_apply_self, mapSet_mapSet,
    setAdd, c3StateAfter1, autoReplyBody]

theorem c3_step2 (t0 : Int) (sender : String) (ht : 0 < t0) :
    processEvent c3OracleW (c3StateAfter1 t0 sender) ⟨"ev2", sender, "c2"⟩
        (t0 + 1800000)
      = ⟨c3StateAfter2 t0 sender, ⟨true, true, none⟩, false⟩ := by
  have hmc : matchCommand "hello" = none := by decide
  have htr : hasTrigger "hello" = true := by decide
  have htne : t0 ≠ 0 := ht.ne'
  have ha1 : t0 + 1800000 - t0 = 1800000 := by ring
  simp [processEvent, c3StateAfter1, c3OracleW, decryptDM,
    detectAndExecuteCommand, hmc, htr, shouldSendAutoReply,
    getConversationState, truthyNum, htne, ha1, CONVERSATION_TIMEOUT_MS,
    mapEmpty, mapSet_apply_self, mapSet_mapSet, setAdd, c3StateAfter2]

theorem c3_step3 (t0 : Int) (sender : String) (ht : 0 < t0) :
    processEvent c3OracleW (c3StateAfter2 t0 sender) ⟨"ev3", sender, "c3"⟩
        (t0 + 3660000)
      = ⟨c3StateAfter3 t0 sender,
         ⟨true, true, some (autoReplyBody c3OracleW)⟩, false⟩ := by
  have hmc : matchCommand "hello" = none := by decide
  have htr : hasTrigger "hello" = true := by decide
  have htne : t0 ≠ 0 := ht.ne'
  have ha2 : t0 + 3660000 - t0 = 3660000 := by ring
  simp [processEvent, c3StateAfter2, c3OracleW, decryptDM,
    detectAndExecuteCommand, hmc, htr, shouldSendAutoReply,
    getConversationState, sendPhase, encryptDM, applyAutoReplyUpdate,
    truthyNum, htne, ha2, CONVERSATION_TIMEOUT_MS, mapEmpty,
    mapSet_apply_self, mapSet_mapSet, setAdd, c3StateAfter3, autoReplyBody]

/-- C3: for the same sender with a fresh state, triggers at `t0`,
`t0 + 30min` and `t0 + 61min` (with the 1-hour window) produce exactly one
auto-reply for the first two — the reply at `t0`, the `t0 + 30min` trigger
suppressed — and a second auto-reply at `t0 + 61min`; each reply sets the
sender's `lastReplyTime` to its send time, so the final conversation state
carries `lastReplyTime = t0 + 61min`. -/
theorem conversation_window_single_reply (t0 : Int) (sender : String)
    (ht : 0 < t0) :
    (runEvents c3OracleW
        [(⟨"ev1", sender, "c1"⟩, t0), (⟨"ev2", sender, "c2"⟩, t0 + 1800000),
         (⟨"ev3", sender, "c3"⟩, t0 + 3660000)] emptyState).2
        = [("ev1", ⟨true, true, some (autoReplyBody c3OracleW)⟩),
           ("ev2", ⟨true, true, none⟩),
           ("ev3", ⟨true, true, some (autoReplyBody c3OracleW)⟩)]
      ∧ (runEvents c3OracleW
          [(⟨"ev1", sender, "c1"⟩, t0), (⟨"ev2", sender, "c2"⟩, t0 + 1800000),
           (⟨"ev3", sender, "c3"⟩, t0 + 3660000)]
          emptyState).1.senderConversations sender
          = some ⟨some (t0 + 3660000), none, 1, none⟩ := by
  rw [runEvents, c3_step1 t0 sender]
  rw [runEvents, c3_step2 t0 sender ht]
  rw [runEvents, c3_step3 t0 sender ht]
  rw [runEvents]
  exact ⟨rfl, by simp [c3StateAfter3, mapSet_apply_self]⟩

/-- Witness for C3 at `t0 = 1000` and a concrete sender. -/
theorem conversation_window_single_reply_witness :
    (runEvents c3OracleW
        [(⟨"ev1", "bbbb", "c1"⟩, 1000), (⟨"ev2", "bbbb", "c2"⟩, 1000 + 1800000),
         (⟨"ev3", "bbbb", "c3"⟩, 1000 + 3660000)] emptyState).2
      = [("ev1", ⟨true, true, some (autoReplyBody c3OracleW)⟩),
         ("ev2", ⟨true, true, none⟩),
         ("ev3", ⟨true, true, some (autoReplyBody c3OracleW)⟩)] :=
  (conversation_window_single_reply 1000 "bbbb" (by decide)).1

end NostrDaemon
